import Mathlib

/-!
Verification of the multi-source sensor acquisition and fallback-selection
subsystem of the hardware monitor (`monitor.py`).

The embedding is shallow: Python floats are modelled as rationals (`ℚ`),
Python `None` as `Option.none`, and Python exceptions as the `Except PyErr`
monad with `pyTry` standing for `try/except` blocks and `pyBind` for
sequencing of possibly-raising expressions.  Each probe method of
`HardwareMonitor` is translated into a function over an explicit
`BackendState` describing what the (flaky, platform-specific) backends
return.  The mutable selected-method slots `_cpu_method` / `_ssd_method`
become an explicit `MonState` threaded through the public API.
-/

namespace IdmMonitor

/-! ### Python exception model -/

/-- Python exception classes relevant to `monitor.py`: `ValueError` and
`TypeError` are caught selectively by the PowerShell-based probes; every
other exception class is collapsed into `otherErr`. -/
inductive PyErr
  | valueError
  | typeError
  | otherErr
deriving DecidableEq

/-- A Python `try: body except ...: handler` block, in the `Except` model. -/
def pyTry {α : Type} (body : Except PyErr α) (handler : PyErr → Except PyErr α) :
    Except PyErr α :=
  match body with
  | .error e => handler e
  | .ok v => .ok v

/-- Sequencing of two possibly-raising Python expressions: if the first
raises, the exception propagates. -/
def pyBind {α β : Type} (x : Except PyErr α) (f : α → Except PyErr β) :
    Except PyErr β :=
  match x with
  | .error e => .error e
  | .ok v => f v

/-! ### Python string primitives -/

/-- Python `str.lower()`, character by character (the sensor names handled
by `monitor.py` are ASCII). -/
def strToLower (s : String) : String := ⟨s.data.map Char.toLower⟩

/-- Python `str.strip()`: drop leading and trailing whitespace. -/
def pyStrip (s : String) : String :=
  ⟨((s.data.dropWhile Char.isWhitespace).reverse.dropWhile Char.isWhitespace).reverse⟩

/-- Whether `pat` occurs at the head of a character list. -/
def leadMatch : List Char → List Char → Bool
  | [], _ => true
  | _ :: _, [] => false
  | p :: ps, c :: cs => p == c && leadMatch ps cs

/-- Whether `pat` occurs anywhere in a character list. -/
def subMatch (pat : List Char) : List Char → Bool
  | [] => pat.isEmpty
  | c :: cs => leadMatch pat (c :: cs) || subMatch pat cs

/-- The Python substring test `pat in s`. -/
def strContains (s pat : String) : Bool := subMatch pat.data s.data

/-- Accumulator pass of decimal-digit parsing; fails on any non-digit. -/
def digitsValAux : List Char → ℕ → Option ℕ
  | [], acc => some acc
  | c :: cs, acc =>
    if c.isDigit then digitsValAux cs (acc * 10 + (c.toNat - 48)) else none

/-- Strip an optional leading sign, returning the sign as an integer. -/
def signSplit : List Char → ℤ × List Char
  | '-' :: rest => (-1, rest)
  | '+' :: rest => (1, rest)
  | cs => (1, cs)

/-- Python `int(s)` on an already-stripped string: an optional sign followed
by at least one decimal digit; anything else raises `ValueError`.  (Exotic
accepted forms such as underscores or non-ASCII digits are not modelled;
none of them can be produced by the PowerShell scripts in `monitor.py`.) -/
def pyIntStr (s : String) : Except PyErr ℤ :=
  match (signSplit s.data).2 with
  | [] => .error .valueError
  | cs =>
    match digitsValAux cs 0 with
    | some n => .ok ((signSplit s.data).1 * n)
    | none => .error .valueError

/-- Split a character list at the first `'.'`, if any. -/
def splitDot : List Char → List Char × Option (List Char)
  | [] => ([], none)
  | c :: cs =>
    if c = '.' then ([], some cs)
    else
      let r := splitDot cs
      (c :: r.1, r.2)

/-- Python `float(s)` on an already-stripped string: an optional sign, then
decimal digits with an optional fractional part (at least one digit in
total); anything else raises `ValueError`.  (Exponent, `inf` and `nan`
forms are not modelled; the storage-reliability counter printed by the
PowerShell script is a plain decimal.) -/
def pyFloatStr (s : String) : Except PyErr ℚ :=
  let sign : ℚ := ((signSplit s.data).1 : ℚ)
  match splitDot (signSplit s.data).2 with
  | (ip, none) =>
    match ip with
    | [] => .error .valueError
    | _ =>
      match digitsValAux ip 0 with
      | some n => .ok (sign * n)
      | none => .error .valueError
  | (ip, some fp) =>
    if ip = [] ∧ fp = [] then .error .valueError
    else
      match digitsValAux ip 0, digitsValAux fp 0 with
      | some n, some f => .ok (sign * ((n : ℚ) + (f : ℚ) / 10 ^ fp.length))
      | _, _ => .error .valueError


/-! ### Python rounding

`round(x, 1)` rounds to one decimal digit with round-half-to-even
(banker's rounding), which is Python 3 `round` semantics on the exact
rational value. -/

/-- Round-half-to-even to the nearest integer. -/
def roundHalfEven (q : ℚ) : ℤ :=
  let f := ⌊q⌋
  let r := q - (f : ℚ)
  if r < 1/2 then f
  else if 1/2 < r then f + 1
  else if f % 2 = 0 then f else f + 1

/-- Python `round(q, 1)`. -/
def pyRound1 (q : ℚ) : ℚ := ((roundHalfEven (q * 10) : ℤ) : ℚ) / 10

/-! ### Backend state

One `BackendState` describes, for a single reading instant, what every
sensor backend used by `monitor.py` would deliver.  Backend calls that can
raise arbitrary exceptions (WMI queries, .NET interop, `subprocess.run`,
`float(...)` conversions of COM values) are recorded as `Except PyErr`
values. -/

/-- `LibreHardwareMonitor` sensor kind (`SensorType`). -/
inductive SensorTy
  | temperature
  | other
deriving DecidableEq

/-- `LibreHardwareMonitor` hardware kind (`HardwareType`). -/
inductive HwTy
  | cpu
  | storage
  | other
deriving DecidableEq

/-- One LHM sensor: `SensorType`, `Value` (possibly `None`) and `Name`
(possibly `None`). -/
structure LhmSensor where
  sensorType : SensorTy
  value : Option ℚ
  name : Option String

/-- One LHM hardware node: its type, the outcome of `hw.Update()` and the
outcome of enumerating `hw.Sensors`. -/
structure LhmHw where
  hardwareType : HwTy
  update : Except PyErr Unit
  sensors : Except PyErr (List LhmSensor)

/-- One sensor of the OHM/LHM WMI provider: `SensorType` string, `Name`
(possibly `None`), `Parent` (possibly missing or `None`) and the result of
`float(sensor.Value)`. -/
structure OhmSensor where
  sensorType : String
  name : Option String
  parent : Option String
  value : Except PyErr ℚ

/-- One `MSAcpi_ThermalZoneTemperature` record: the result of
`int(tz.CurrentTemperature)`. -/
structure TzRec where
  currentTemperature : Except PyErr ℤ

/-- One `MSFT_PhysicalDisk` record: `getattr(disk, "Temperature", None)`,
and when present the result of `float(raw)`. -/
structure DiskRec where
  temperature : Option (Except PyErr ℚ)

/-- Outcome of one `subprocess.run(["powershell", ...])` call. -/
structure RunResult where
  returncode : ℤ
  stdout : String

/-- Everything the backends would deliver at one reading instant. -/
structure BackendState where
  /-- `LHM_READY` module flag. -/
  lhm_ready : Bool
  /-- `_lhm_computer` (`None` when not loaded) and the outcome of
  enumerating `_lhm_computer.Hardware`. -/
  lhm_computer : Option (Except PyErr (List LhmHw))
  /-- `self._wmi_ohm` handle and the outcome of its `Sensor()` query. -/
  wmi_ohm : Option (Except PyErr (List OhmSensor))
  /-- `self._wmi_root` handle and the outcome of its
  `MSAcpi_ThermalZoneTemperature()` query. -/
  wmi_root : Option (Except PyErr (List TzRec))
  /-- `self._wmi_storage` handle and the outcome of its
  `MSFT_PhysicalDisk()` query. -/
  wmi_storage : Option (Except PyErr (List DiskRec))
  /-- Outcome of `subprocess.run` for the ACPI thermal-zone script. -/
  ps_acpi_run : Except PyErr RunResult
  /-- Outcome of `subprocess.run` for the storage-reliability script. -/
  ps_rel_run : Except PyErr RunResult
  /-- `hasattr(psutil, "sensors_temperatures")`. -/
  psutil_has_sensors : Bool
  /-- Outcome of `psutil.sensors_temperatures()`: an insertion-ordered dict
  from source name to the list of per-sensor `current` values. -/
  psutil_temps : Except PyErr (List (String × List ℚ))

/-- The `except Exception` handler shape used by most probes: swallow the
exception and return `None`. -/
def catchAllNone : PyErr → Except PyErr (Option ℚ) := fun _ => .ok none

/-- The `except (ValueError, TypeError)` handler of the PowerShell-based
probes: swallow those two classes, re-raise anything else. -/
def psValueHandler : PyErr → Except PyErr (Option ℚ) := fun e =>
  match e with
  | .valueError => .ok none
  | .typeError => .ok none
  | e => .error e

/-! ### Helper `_run_powershell` -/

/-- `_run_powershell`: run the script; on exit code 0 with non-blank
stdout return the stripped stdout, otherwise (including on any
exception) return `None`. -/
def run_powershell (r : Except PyErr RunResult) : Except PyErr (Option String) :=
  pyTry
    (pyBind r (fun res =>
      if res.returncode = 0 ∧ pyStrip res.stdout ≠ "" then .ok (some (pyStrip res.stdout))
      else .ok none))
    (fun _ => .ok none)

/-! ### CPU temperature probes -/

/-- Scan of `hw.Sensors` in `_cpu_temp_lhm`, accumulating `pkg_temp` and
`first_core`. -/
def lhmCpuScan : List LhmSensor → Option ℚ → Option ℚ → Option ℚ × Option ℚ
  | [], pkg, core => (pkg, core)
  | s :: rest, pkg, core =>
    if s.sensorType ≠ SensorTy.temperature then lhmCpuScan rest pkg core
    else
      match s.value with
      | none => lhmCpuScan rest pkg core
      | some v =>
        if ¬ (0 < v ∧ v < 150) then lhmCpuScan rest pkg core
        else
          let nm := strToLower (s.name.getD "")
          if strContains nm "package" || strContains nm "total" then
            lhmCpuScan rest (some v) core
          else if core.isNone && strContains nm "core" then
            lhmCpuScan rest pkg (some v)
          else lhmCpuScan rest pkg core

/-- Loop over `_lhm_computer.Hardware` in `_cpu_temp_lhm`. -/
def lhmCpuLoop : List LhmHw → Except PyErr (Option ℚ)
  | [] => .ok none
  | hw :: rest =>
    if hw.hardwareType ≠ HwTy.cpu then lhmCpuLoop rest
    else
      pyBind hw.update (fun _ =>
        pyBind hw.sensors (fun sensors =>
          match lhmCpuScan sensors none none with
          | (some pkg, _) => .ok (some (pyRound1 pkg))
          | (none, some core) => .ok (some (pyRound1 core))
          | (none, none) => lhmCpuLoop rest))

/-- `_cpu_temp_lhm` — LibreHardwareMonitor via pythonnet. -/
def cpu_temp_lhm (st : BackendState) : Except PyErr (Option ℚ) :=
  if !st.lhm_ready then .ok none
  else
    match st.lhm_computer with
    | none => .ok none
    | some hwE => pyTry (pyBind hwE lhmCpuLoop) catchAllNone

/-- CPU-name keywords of `_cpu_temp_ohm`. -/
def ohmCpuKeys : List String := ["cpu package", "cpu total", "core #0", "cpu"]

/-- Loop over the WMI `Sensor()` result in `_cpu_temp_ohm`. -/
def ohmCpuLoop : List OhmSensor → Except PyErr (Option ℚ)
  | [] => .ok none
  | s :: rest =>
    if s.sensorType = "Temperature" then
      let nm := strToLower (s.name.getD "")
      if ohmCpuKeys.any (fun k => strContains nm k) then
        pyBind s.value (fun v =>
          if 0 < v ∧ v < 150 then .ok (some (pyRound1 v)) else ohmCpuLoop rest)
      else ohmCpuLoop rest
    else ohmCpuLoop rest

/-- `_cpu_temp_ohm` — OHM/LHM WMI provider. -/
def cpu_temp_ohm (st : BackendState) : Except PyErr (Option ℚ) :=
  match st.wmi_ohm with
  | none => .ok none
  | some sE => pyTry (pyBind sE ohmCpuLoop) catchAllNone

/-- Loop over the thermal-zone records in `_cpu_temp_wmi_acpi`. -/
def wmiAcpiLoop : List TzRec → Except PyErr (Option ℚ)
  | [] => .ok none
  | tz :: rest =>
    pyBind tz.currentTemperature (fun raw =>
      let celsius := (raw : ℚ) / 10 - 27315 / 100
      if 0 < celsius ∧ celsius < 150 then .ok (some (pyRound1 celsius))
      else wmiAcpiLoop rest)

/-- `_cpu_temp_wmi_acpi` — WMI `MSAcpi_ThermalZoneTemperature`. -/
def cpu_temp_wmi_acpi (st : BackendState) : Except PyErr (Option ℚ) :=
  match st.wmi_root with
  | none => .ok none
  | some q => pyTry (pyBind q wmiAcpiLoop) catchAllNone

/-- `_cpu_temp_ps_acpi` — PowerShell CIM `MSAcpi_ThermalZoneTemperature`. -/
def cpu_temp_ps_acpi (st : BackendState) : Except PyErr (Option ℚ) :=
  pyBind (run_powershell st.ps_acpi_run) (fun output =>
    match output with
    | none => .ok none
    | some o =>
      if o = "" then .ok none
      else
        pyTry
          (pyBind (pyIntStr (pyStrip o)) (fun raw =>
            let celsius := (raw : ℚ) / 10 - 27315 / 100
            if 0 < celsius ∧ celsius < 150 then .ok (some (pyRound1 celsius))
            else .ok none))
          psValueHandler)

/-- Preferred source names of `_cpu_temp_psutil`. -/
def psutilNames : List String := ["coretemp", "cpu_thermal", "k10temp", "zenpower"]

/-- First loop of `_cpu_temp_psutil`: try the preferred source names. -/
def psutilLookup (temps : List (String × List ℚ)) : List String → Option ℚ
  | [] => none
  | n :: rest =>
    match temps.lookup n with
    | some (e :: _) => some e
    | _ => psutilLookup temps rest

/-- Second loop of `_cpu_temp_psutil`: first entry of any source. -/
def psutilValues : List (String × List ℚ) → Option ℚ
  | [] => none
  | (_, e :: _) :: _ => some e
  | (_, []) :: rest => psutilValues rest

/-- `_cpu_temp_psutil` — `psutil.sensors_temperatures()` fallback.  Note:
unlike every other probe, this one performs no `(0, 150)` range check and
no rounding on the returned `current` value. -/
def cpu_temp_psutil (st : BackendState) : Except PyErr (Option ℚ) :=
  if !st.psutil_has_sensors then .ok none
  else
    pyTry
      (pyBind st.psutil_temps (fun temps =>
        if temps.isEmpty then .ok none
        else
          match psutilLookup temps psutilNames with
          | some v => .ok (some v)
          | none =>
            match psutilValues temps with
            | some v => .ok (some v)
            | none => .ok none))
      catchAllNone

/-! ### SSD temperature probes -/

/-- Scan of `hw.Sensors` in `_ssd_temp_lhm`: first in-range temperature. -/
def lhmSsdScan : List LhmSensor → Option ℚ
  | [] => none
  | s :: rest =>
    if s.sensorType ≠ SensorTy.temperature then lhmSsdScan rest
    else
      match s.value with
      | none => lhmSsdScan rest
      | some v => if 0 < v ∧ v < 150 then some (pyRound1 v) else lhmSsdScan rest

/-- Loop over `_lhm_computer.Hardware` in `_ssd_temp_lhm`. -/
def lhmSsdLoop : List LhmHw → Except PyErr (Option ℚ)
  | [] => .ok none
  | hw :: rest =>
    if hw.hardwareType ≠ HwTy.storage then lhmSsdLoop rest
    else
      pyBind hw.update (fun _ =>
        pyBind hw.sensors (fun sensors =>
          match lhmSsdScan sensors with
          | some v => .ok (some v)
          | none => lhmSsdLoop rest))

/-- `_ssd_temp_lhm` — LibreHardwareMonitor via pythonnet. -/
def ssd_temp_lhm (st : BackendState) : Except PyErr (Option ℚ) :=
  if !st.lhm_ready then .ok none
  else
    match st.lhm_computer with
    | none => .ok none
    | some hwE => pyTry (pyBind hwE lhmSsdLoop) catchAllNone

/-- Sensor-name keywords of `_ssd_temp_ohm`. -/
def ohmSsdNameKeys : List String := ["ssd", "nvme", "disk", "drive"]

/-- Parent keywords of `_ssd_temp_ohm`. -/
def ohmSsdParentKeys : List String := ["nvme", "ssd", "storage"]

/-- Loop over the WMI `Sensor()` result in `_ssd_temp_ohm`: the name test
and the parent test are two successive `if` statements, each reading
`float(sensor.Value)` anew. -/
def ohmSsdLoop : List OhmSensor → Except PyErr (Option ℚ)
  | [] => .ok none
  | s :: rest =>
    if s.sensorType = "Temperature" then
      let nm := strToLower (s.name.getD "")
      let par := strToLower (s.parent.getD "")
      if ohmSsdNameKeys.any (fun k => strContains nm k) then
        pyBind s.value (fun v =>
          if 0 < v ∧ v < 150 then .ok (some (pyRound1 v))
          else
            if ohmSsdParentKeys.any (fun k => strContains par k) then
              pyBind s.value (fun w =>
                if 0 < w ∧ w < 150 then .ok (some (pyRound1 w)) else ohmSsdLoop rest)
            else ohmSsdLoop rest)
      else
        if ohmSsdParentKeys.any (fun k => strContains par k) then
          pyBind s.value (fun v =>
            if 0 < v ∧ v < 150 then .ok (some (pyRound1 v)) else ohmSsdLoop rest)
        else ohmSsdLoop rest
    else ohmSsdLoop rest

/-- `_ssd_temp_ohm` — OHM/LHM WMI provider. -/
def ssd_temp_ohm (st : BackendState) : Except PyErr (Option ℚ) :=
  match st.wmi_ohm with
  | none => .ok none
  | some sE => pyTry (pyBind sE ohmSsdLoop) catchAllNone

/-- `_ssd_temp_ps_reliability` — PowerShell `Get-StorageReliabilityCounter`. -/
def ssd_temp_ps_reliability (st : BackendState) : Except PyErr (Option ℚ) :=
  pyBind (run_powershell st.ps_rel_run) (fun output =>
    match output with
    | none => .ok none
    | some o =>
      if o = "" then .ok none
      else
        pyTry
          (pyBind (pyFloatStr (pyStrip o)) (fun v =>
            if 0 < v ∧ v < 150 then .ok (some (pyRound1 v)) else .ok none))
          psValueHandler)

/-- Loop over the `MSFT_PhysicalDisk` records in `_ssd_temp_wmi_storage`. -/
def wmiStorageLoop : List DiskRec → Except PyErr (Option ℚ)
  | [] => .ok none
  | d :: rest =>
    match d.temperature with
    | none => wmiStorageLoop rest
    | some vE =>
      pyBind vE (fun v =>
        if 0 < v ∧ v < 150 then .ok (some (pyRound1 v)) else wmiStorageLoop rest)

/-- `_ssd_temp_wmi_storage` — WMI `MSFT_PhysicalDisk`. -/
def ssd_temp_wmi_storage (st : BackendState) : Except PyErr (Option ℚ) :=
  match st.wmi_storage with
  | none => .ok none
  | some q => pyTry (pyBind q wmiStorageLoop) catchAllNone

/-! ### Probe outcome abstraction

By the never-throws theorem below, what the chain layer observes from one
probe call is exactly an `Option ℚ`.  `probeVal` extracts it, and the
chain/selector functions are stated over an arbitrary outcome function
`p : String → Option ℚ` (one fixed backend-availability state), of which
`cpuProbeOf st` / `ssdProbeOf st` are the concrete instances. -/

/-- What the caller of a probe observes when no exception escapes. -/
def probeVal (x : Except PyErr (Option ℚ)) : Option ℚ :=
  match x with
  | .ok v => v
  | .error _ => none

/-- The CPU chain of `_detect_best_methods` / `get_cpu_temperature`, in
declared priority order. -/
def cpuProbeFuns : List (String × (BackendState → Except PyErr (Option ℚ))) :=
  [("lhm", cpu_temp_lhm),
   ("ohm_wmi", cpu_temp_ohm),
   ("wmi_acpi", cpu_temp_wmi_acpi),
   ("ps_acpi", cpu_temp_ps_acpi),
   ("psutil", cpu_temp_psutil)]

/-- The SSD chain of `_detect_best_methods` / `get_ssd_temperature`, in
declared priority order. -/
def ssdProbeFuns : List (String × (BackendState → Except PyErr (Option ℚ))) :=
  [("lhm", ssd_temp_lhm),
   ("ohm_wmi", ssd_temp_ohm),
   ("ps_reliability", ssd_temp_ps_reliability),
   ("wmi_storage", ssd_temp_wmi_storage)]

/-- Concrete CPU probe outcomes at one backend state. -/
def cpuProbeOf (st : BackendState) (name : String) : Option ℚ :=
  match cpuProbeFuns.lookup name with
  | some f => probeVal (f st)
  | none => none

/-- Concrete SSD probe outcomes at one backend state. -/
def ssdProbeOf (st : BackendState) (name : String) : Option ℚ :=
  match ssdProbeFuns.lookup name with
  | some f => probeVal (f st)
  | none => none

/-! ### Chain / method selector -/

/-- The CPU chain's probe names, in priority order (both the `cpu_methods`
list of `_detect_best_methods` and the `dispatch` dict of
`get_cpu_temperature` are in this insertion order). -/
def cpuChain : List String := ["lhm", "ohm_wmi", "wmi_acpi", "ps_acpi", "psutil"]

/-- The SSD chain's probe names, in priority order. -/
def ssdChain : List String := ["lhm", "ohm_wmi", "ps_reliability", "wmi_storage"]

/-- The mutable selected-method slots of `HardwareMonitor`:
`_cpu_method` and `_ssd_method` (`None` or a probe name). -/
structure MonState where
  cpu_method : Option String
  ssd_method : Option String
deriving DecidableEq

/-- One walk down a chain: first non-absent result wins.  Returns the
winning `(name, value)` pair (or `none` if the chain is exhausted)
together with the list of probe names invoked, in invocation order. -/
def sweepT (p : String → Option ℚ) : List String → Option (String × ℚ) × List String
  | [] => (none, [])
  | n :: rest =>
    match p n with
    | some v => (some (n, v), [n])
    | none =>
      let r := sweepT p rest
      (r.1, n :: r.2)

/-- `_detect_best_methods`, with the two invocation traces. -/
def detect_best_methodsT (cp sp : String → Option ℚ) :
    MonState × List String × List String :=
  ⟨⟨((sweepT cp cpuChain).1.map Prod.fst), ((sweepT sp ssdChain).1.map Prod.fst)⟩,
    (sweepT cp cpuChain).2, (sweepT sp ssdChain).2⟩

/-- `_detect_best_methods`: the resulting selected-method slots. -/
def detect_best_methods (cp sp : String → Option ℚ) : MonState :=
  (detect_best_methodsT cp sp).1

/-- `HardwareMonitor.__init__`: both slots start as `None`, then one
discovery pass per metric (`_detect_best_methods`) fills them. -/
def monitorInit (cp sp : String → Option ℚ) : MonState :=
  detect_best_methods cp sp

/-- `get_cpu_temperature`, with the invocation trace: if a method is
selected (and is a key of the dispatch dict), call it alone; on its
success return its value, otherwise fall through to a full sweep of the
dispatch dict in insertion order, updating the selected method on
success. -/
def get_cpu_temperatureT (p : String → Option ℚ) (s : MonState) :
    Option ℚ × MonState × List String :=
  let sw := sweepT p cpuChain
  let fallback : Option ℚ × MonState × List String :=
    match sw.1 with
    | some nv => (some nv.2, {s with cpu_method := some nv.1}, sw.2)
    | none => (none, s, sw.2)
  match s.cpu_method with
  | none => fallback
  | some m =>
    if m ∈ cpuChain then
      match p m with
      | some v => (some v, s, [m])
      | none => (fallback.1, fallback.2.1, m :: fallback.2.2)
    else fallback

/-- `get_cpu_temperature`: returned value and updated state. -/
def get_cpu_temperature (p : String → Option ℚ) (s : MonState) :
    Option ℚ × MonState :=
  ((get_cpu_temperatureT p s).1, (get_cpu_temperatureT p s).2.1)

/-- `get_ssd_temperature`, with the invocation trace. -/
def get_ssd_temperatureT (p : String → Option ℚ) (s : MonState) :
    Option ℚ × MonState × List String :=
  let sw := sweepT p ssdChain
  let fallback : Option ℚ × MonState × List String :=
    match sw.1 with
    | some nv => (some nv.2, {s with ssd_method := some nv.1}, sw.2)
    | none => (none, s, sw.2)
  match s.ssd_method with
  | none => fallback
  | some m =>
    if m ∈ ssdChain then
      match p m with
      | some v => (some v, s, [m])
      | none => (fallback.1, fallback.2.1, m :: fallback.2.2)
    else fallback

/-- `get_ssd_temperature`: returned value and updated state. -/
def get_ssd_temperature (p : String → Option ℚ) (s : MonState) :
    Option ℚ × MonState :=
  ((get_ssd_temperatureT p s).1, (get_ssd_temperatureT p s).2.1)

/-! ### Sensor reader -/

/-- The direct OS utilization queries consumed by `read_sensors`
(`psutil.cpu_percent`, `virtual_memory().percent`,
`disk_usage("C:\\").percent`) plus the timestamp clock. -/
structure OsState where
  timestamp : String
  cpu_percent : ℚ
  ram_percent : ℚ
  disk_percent : ℚ

/-- The `SensorReading` dataclass. -/
structure SensorReading where
  timestamp : String
  cpu_percent : ℚ
  cpu_temp : Option ℚ
  ram_percent : ℚ
  disk_percent : ℚ
  ssd_temp : Option ℚ
deriving DecidableEq

/-- `read_sensors`: utilization from the direct OS query, temperatures via
the two chains, every numeric field rounded to one decimal. -/
def read_sensors (os : OsState) (cp sp : String → Option ℚ) (s : MonState) :
    SensorReading × MonState :=
  let c := get_cpu_temperature cp s
  let d := get_ssd_temperature sp c.2
  ({ timestamp := os.timestamp,
     cpu_percent := pyRound1 os.cpu_percent,
     cpu_temp := c.1.map pyRound1,
     ram_percent := pyRound1 os.ram_percent,
     disk_percent := pyRound1 os.disk_percent,
     ssd_temp := d.1.map pyRound1 }, d.2)

/-! ### Diagnostic labels -/

/-- The label dict of `cpu_method_label`. -/
def cpuLabels : List (String × String) :=
  [("lhm", "LibreHardwareMonitor"),
   ("ohm_wmi", "OHM/LHM WMI"),
   ("wmi_acpi", "WMI ThermalZone"),
   ("ps_acpi", "PowerShell ACPI"),
   ("psutil", "psutil")]

/-- The label dict of `ssd_method_label`. -/
def ssdLabels : List (String × String) :=
  [("lhm", "LibreHardwareMonitor"),
   ("ohm_wmi", "OHM/LHM WMI"),
   ("ps_reliability", "StorageReliability"),
   ("wmi_storage", "WMI Storage")]

/-- `cpu_method_label`: `labels.get(self._cpu_method or "", "Tidak
tersedia")` — "Tidak tersedia" is the unavailable label. -/
def cpu_method_label (s : MonState) : String :=
  (cpuLabels.lookup (s.cpu_method.getD "")).getD "Tidak tersedia"

/-- `ssd_method_label`. -/
def ssd_method_label (s : MonState) : String :=
  (ssdLabels.lookup (s.ssd_method.getD "")).getD "Tidak tersedia"

/-- The `temp_cpu_method` entry of `get_system_info`:
`self._cpu_method or "none"`. -/
def temp_cpu_method (s : MonState) : String := s.cpu_method.getD "none"

/-- The `temp_ssd_method` entry of `get_system_info`. -/
def temp_ssd_method (s : MonState) : String := s.ssd_method.getD "none"

/-! ### Reachable-state invariant -/

/-- A selected-method slot, when filled, holds a name of its own metric's
chain. -/
def methodInv (s : MonState) : Prop :=
  (∀ m, s.cpu_method = some m → m ∈ cpuChain) ∧
  (∀ m, s.ssd_method = some m → m ∈ ssdChain)

/-! ### Concrete fixtures used in instantiation theorems -/

/-- Probe-outcome function of a machine where every backend fails. -/
def noneProbe : String → Option ℚ := fun _ => none

/-- CPU outcomes: first probe dead, second succeeds. -/
def cpuHit2 : String → Option ℚ := fun n => if n = "ohm_wmi" then some 42 else none

/-- Like `cpuHit2` but a lower-priority probe's outcome changed. -/
def cpuHit2' : String → Option ℚ :=
  fun n => if n = "ohm_wmi" then some 42 else if n = "psutil" then some 99 else none

/-- SSD outcomes: first two probes dead, third succeeds. -/
def ssdHit3 : String → Option ℚ :=
  fun n => if n = "ps_reliability" then some 41 else none

/-- Like `ssdHit3` but a lower-priority probe's outcome changed. -/
def ssdHit3' : String → Option ℚ :=
  fun n => if n = "ps_reliability" then some 41
    else if n = "wmi_storage" then some 77 else none

/-- CPU outcomes: only the first (sticky) probe succeeds. -/
def cpuSticky : String → Option ℚ := fun n => if n = "lhm" then some 36 else none

/-- SSD outcomes: only the second (sticky) probe succeeds. -/
def ssdSticky : String → Option ℚ := fun n => if n = "ohm_wmi" then some 40 else none

/-- CPU outcomes: sticky probe dead, third probe succeeds with 50. -/
def cpuThird : String → Option ℚ := fun n => if n = "wmi_acpi" then some 50 else none

/-- SSD outcomes: sticky probe dead, third probe succeeds with 45. -/
def ssdThird : String → Option ℚ :=
  fun n => if n = "ps_reliability" then some 45 else none

/-- A monitor state with a method selected for both metrics. -/
def s0 : MonState := ⟨some "lhm", some "lhm"⟩

/-- A monitor state with distinct selections. -/
def sB : MonState := ⟨some "lhm", some "ohm_wmi"⟩

/-- A fixed utilization snapshot. -/
def os0 : OsState := ⟨"2026-10-12 00:00:00", 12, 34, 56⟩

/-- The backend state exhibiting the missing range check of
`_cpu_temp_psutil`: every backend is unavailable except psutil, whose
`sensors_temperatures()` reports a `coretemp` entry of 9999 degrees (e.g.
a misparsed sentinel value). -/
def psutilBugState : BackendState where
  lhm_ready := false
  lhm_computer := none
  wmi_ohm := none
  wmi_root := none
  wmi_storage := none
  ps_acpi_run := .error .otherErr
  ps_rel_run := .error .otherErr
  psutil_has_sensors := true
  psutil_temps := .ok [("coretemp", [9999])]

/-! ### Lemmas about the Python primitives -/

@[simp] theorem pyBind_ok {α β : Type} (v : α) (f : α → Except PyErr β) :
    pyBind (.ok v) f = f v := rfl

@[simp] theorem pyBind_error {α β : Type} (e : PyErr) (f : α → Except PyErr β) :
    pyBind (.error e) f = .error e := rfl

@[simp] theorem pyTry_ok {α : Type} (v : α) (handler : PyErr → Except PyErr α) :
    pyTry (.ok v) handler = .ok v := rfl

@[simp] theorem pyTry_error {α : Type} (e : PyErr) (handler : PyErr → Except PyErr α) :
    pyTry (.error e) handler = handler e := rfl

/-- A `try/except Exception` block whose handler never raises always
completes normally. -/
theorem pyTry_catchAll {α : Type} (body : Except PyErr α) (h : PyErr → α) :
    ∃ r, pyTry body (fun e => .ok (h e)) = .ok r := by
  cases body with
  | error e => exact ⟨h e, rfl⟩
  | ok v => exact ⟨v, rfl⟩

/-- `int(s)` either returns a value or raises exactly `ValueError`. -/
theorem pyIntStr_cases (s : String) :
    (∃ n, pyIntStr s = .ok n) ∨ pyIntStr s = .error .valueError := by
  unfold pyIntStr
  cases h : (signSplit s.data).2 with
  | nil => exact Or.inr rfl
  | cons c cs =>
    simp only
    cases digitsValAux (c :: cs) 0 with
    | some n => exact Or.inl ⟨_, rfl⟩
    | none => exact Or.inr rfl

/-- `float(s)` either returns a value or raises exactly `ValueError`. -/
theorem pyFloatStr_cases (s : String) :
    (∃ q, pyFloatStr s = .ok q) ∨ pyFloatStr s = .error .valueError := by
  unfold pyFloatStr
  rcases hsp : splitDot (signSplit s.data).2 with ⟨ip, _ | fp⟩ <;> simp only
  · cases ip with
    | nil => exact Or.inr rfl
    | cons c cs =>
      simp only
      cases digitsValAux (c :: cs) 0 with
      | some n => exact Or.inl ⟨_, rfl⟩
      | none => exact Or.inr rfl
  · by_cases h : ip = [] ∧ fp = []
    · simp only [h, if_true]; exact Or.inr rfl
    · simp only [h, if_false]
      cases digitsValAux ip 0 with
      | some n =>
        cases digitsValAux fp 0 with
        | some f => exact Or.inl ⟨_, rfl⟩
        | none => exact Or.inr rfl
      | none => exact Or.inr rfl

theorem roundHalfEven_intCast (n : ℤ) : roundHalfEven (n : ℚ) = n := by
  simp [roundHalfEven]

theorem pyRound1_intCast (n : ℤ) : pyRound1 (n : ℚ) = (n : ℚ) := by
  unfold pyRound1
  have h : ((n : ℚ) * 10) = ((n * 10 : ℤ) : ℚ) := by push_cast; ring
  rw [h, roundHalfEven_intCast]
  push_cast
  ring

theorem pyRound1_idem (q : ℚ) : pyRound1 (pyRound1 q) = pyRound1 q := by
  conv_lhs => rw [pyRound1]
  have h : (((roundHalfEven (q * 10) : ℤ) : ℚ) / 10) * 10
      = ((roundHalfEven (q * 10) : ℤ) : ℚ) := by field_simp
  rw [show pyRound1 q * 10 = ((roundHalfEven (q * 10) : ℤ) : ℚ) from h,
    roundHalfEven_intCast]
  rfl

/-! ### Chain walk lemmas -/

theorem sweepT_first (p : String → Option ℚ) :
    ∀ (pre : List String) (n : String) (post : List String) (v : ℚ),
      (∀ x ∈ pre, p x = none) → p n = some v →
      sweepT p (pre ++ n :: post) = (some (n, v), pre ++ [n]) := by
  intro pre
  induction pre with
  | nil =>
    intro n post v _ h
    simp [sweepT, h]
  | cons a l ih =>
    intro n post v hpre h
    have ha : p a = none := hpre a (by simp)
    simp only [List.cons_append, sweepT, ha]
    rw [show l.append (n :: post) = l ++ n :: post from rfl,
      ih n post v (fun x hx => hpre x (by simp [hx])) h]

theorem sweepT_none (p : String → Option ℚ) :
    ∀ l : List String, (∀ x ∈ l, p x = none) → sweepT p l = (none, l) := by
  intro l
  induction l with
  | nil => intro _; rfl
  | cons a rest ih =>
    intro h
    have ha : p a = none := h a (by simp)
    simp only [sweepT, ha]
    rw [ih (fun x hx => h x (by simp [hx]))]

theorem sweepT_sel_mem (p : String → Option ℚ) :
    ∀ (l : List String) (n : String) (v : ℚ),
      (sweepT p l).1 = some (n, v) → n ∈ l ∧ p n = some v := by
  intro l
  induction l with
  | nil => intro n v h; exact absurd h (by simp [sweepT])
  | cons a rest ih =>
    intro n v h
    by_cases ha : ∃ w, p a = some w
    · obtain ⟨w, hw⟩ := ha
      simp only [sweepT, hw] at h
      obtain ⟨h1, h2⟩ := Prod.mk.injEq .. ▸ (Option.some.injEq .. ▸ h)
      subst h1
      exact ⟨by simp, h2 ▸ hw⟩
    · have hn : p a = none := Option.eq_none_iff_forall_not_mem.2
        (fun w hw => ha ⟨w, hw⟩)
      simp only [sweepT, hn] at h
      obtain ⟨hm, hv⟩ := ih n v h
      exact ⟨by simp [hm], hv⟩

/-! ### `get_cpu_temperature` / `get_ssd_temperature` case lemmas -/

theorem get_cpuT_sticky_hit (p : String → Option ℚ) (s : MonState) (m : String)
    (v : ℚ) (hm : s.cpu_method = some m) (hmem : m ∈ cpuChain)
    (hp : p m = some v) :
    get_cpu_temperatureT p s = (some v, s, [m]) := by
  unfold get_cpu_temperatureT
  rw [hm]
  simp only [hmem, if_true, hp]

theorem get_cpuT_sticky_miss (p : String → Option ℚ) (s : MonState) (m : String)
    (hm : s.cpu_method = some m) (hmem : m ∈ cpuChain) (hp : p m = none) :
    get_cpu_temperatureT p s =
      (match (sweepT p cpuChain).1 with
        | some nv => (some nv.2, {s with cpu_method := some nv.1},
            m :: (sweepT p cpuChain).2)
        | none => (none, s, m :: (sweepT p cpuChain).2)) := by
  unfold get_cpu_temperatureT
  rw [hm]
  simp only [hmem, if_true, hp]
  all_goals (cases (sweepT p cpuChain).1 <;> rfl)

theorem get_cpuT_no_sticky (p : String → Option ℚ) (s : MonState)
    (hm : s.cpu_method = none) :
    get_cpu_temperatureT p s =
      (match (sweepT p cpuChain).1 with
        | some nv => (some nv.2, {s with cpu_method := some nv.1},
            (sweepT p cpuChain).2)
        | none => (none, s, (sweepT p cpuChain).2)) := by
  unfold get_cpu_temperatureT
  rw [hm]

theorem get_cpuT_stale_sticky (p : String → Option ℚ) (s : MonState) (m : String)
    (hm : s.cpu_method = some m) (hmem : m ∉ cpuChain) :
    get_cpu_temperatureT p s =
      (match (sweepT p cpuChain).1 with
        | some nv => (some nv.2, {s with cpu_method := some nv.1},
            (sweepT p cpuChain).2)
        | none => (none, s, (sweepT p cpuChain).2)) := by
  unfold get_cpu_temperatureT
  rw [hm]
  simp only [hmem, if_false]

theorem get_ssdT_sticky_hit (p : String → Option ℚ) (s : MonState) (m : String)
    (v : ℚ) (hm : s.ssd_method = some m) (hmem : m ∈ ssdChain)
    (hp : p m = some v) :
    get_ssd_temperatureT p s = (some v, s, [m]) := by
  unfold get_ssd_temperatureT
  rw [hm]
  simp only [hmem, if_true, hp]

theorem get_ssdT_sticky_miss (p : String → Option ℚ) (s : MonState) (m : String)
    (hm : s.ssd_method = some m) (hmem : m ∈ ssdChain) (hp : p m = none) :
    get_ssd_temperatureT p s =
      (match (sweepT p ssdChain).1 with
        | some nv => (some nv.2, {s with ssd_method := some nv.1},
            m :: (sweepT p ssdChain).2)
        | none => (none, s, m :: (sweepT p ssdChain).2)) := by
  unfold get_ssd_temperatureT
  rw [hm]
  simp only [hmem, if_true, hp]
  all_goals (cases (sweepT p ssdChain).1 <;> rfl)

theorem get_ssdT_no_sticky (p : String → Option ℚ) (s : MonState)
    (hm : s.ssd_method = none) :
    get_ssd_temperatureT p s =
      (match (sweepT p ssdChain).1 with
        | some nv => (some nv.2, {s with ssd_method := some nv.1},
            (sweepT p ssdChain).2)
        | none => (none, s, (sweepT p ssdChain).2)) := by
  unfold get_ssd_temperatureT
  rw [hm]

theorem get_ssdT_stale_sticky (p : String → Option ℚ) (s : MonState) (m : String)
    (hm : s.ssd_method = some m) (hmem : m ∉ ssdChain) :
    get_ssd_temperatureT p s =
      (match (sweepT p ssdChain).1 with
        | some nv => (some nv.2, {s with ssd_method := some nv.1},
            (sweepT p ssdChain).2)
        | none => (none, s, (sweepT p ssdChain).2)) := by
  unfold get_ssd_temperatureT
  rw [hm]
  simp only [hmem, if_false]

/-- When every CPU probe fails, a read returns absence and leaves the
state untouched. -/
theorem get_cpu_all_none (p : String → Option ℚ) (s : MonState)
    (h : ∀ x, p x = none) : get_cpu_temperature p s = (none, s) := by
  have hs : sweepT p cpuChain = (none, cpuChain) :=
    sweepT_none p cpuChain (fun x _ => h x)
  unfold get_cpu_temperature
  cases hm : s.cpu_method with
  | none => rw [get_cpuT_no_sticky p s hm, hs]
  | some m =>
    by_cases hmem : m ∈ cpuChain
    · rw [get_cpuT_sticky_miss p s m hm hmem (h m), hs]
    · rw [get_cpuT_stale_sticky p s m hm hmem, hs]

/-- When every SSD probe fails, a read returns absence and leaves the
state untouched. -/
theorem get_ssd_all_none (p : String → Option ℚ) (s : MonState)
    (h : ∀ x, p x = none) : get_ssd_temperature p s = (none, s) := by
  have hs : sweepT p ssdChain = (none, ssdChain) :=
    sweepT_none p ssdChain (fun x _ => h x)
  unfold get_ssd_temperature
  cases hm : s.ssd_method with
  | none => rw [get_ssdT_no_sticky p s hm, hs]
  | some m =>
    by_cases hmem : m ∈ ssdChain
    · rw [get_ssdT_sticky_miss p s m hm hmem (h m), hs]
    · rw [get_ssdT_stale_sticky p s m hm hmem, hs]

/-- The state after `get_cpu_temperature` is either unchanged or has
`cpu_method` set to a CPU-chain name (and `ssd_method` untouched). -/
theorem get_cpu_state_cases (p : String → Option ℚ) (s : MonState) :
    (get_cpu_temperature p s).2 = s ∨
      ∃ n, n ∈ cpuChain ∧ (get_cpu_temperature p s).2 = {s with cpu_method := some n} := by
  unfold get_cpu_temperature
  cases hsw : (sweepT p cpuChain).1 with
  | none =>
    cases hm : s.cpu_method with
    | none => rw [get_cpuT_no_sticky p s hm, hsw]; exact Or.inl rfl
    | some m =>
      by_cases hmem : m ∈ cpuChain
      · cases hp : p m with
        | some v => rw [get_cpuT_sticky_hit p s m v hm hmem hp]; exact Or.inl rfl
        | none => rw [get_cpuT_sticky_miss p s m hm hmem hp, hsw]; exact Or.inl rfl
      · rw [get_cpuT_stale_sticky p s m hm hmem, hsw]; exact Or.inl rfl
  | some nv =>
    have hmem2 : nv.1 ∈ cpuChain :=
      (sweepT_sel_mem p cpuChain nv.1 nv.2 (by rw [hsw])).1
    cases hm : s.cpu_method with
    | none =>
      rw [get_cpuT_no_sticky p s hm, hsw]
      exact Or.inr ⟨nv.1, hmem2, rfl⟩
    | some m =>
      by_cases hmem : m ∈ cpuChain
      · cases hp : p m with
        | some v => rw [get_cpuT_sticky_hit p s m v hm hmem hp]; exact Or.inl rfl
        | none =>
          rw [get_cpuT_sticky_miss p s m hm hmem hp, hsw]
          exact Or.inr ⟨nv.1, hmem2, rfl⟩
      · rw [get_cpuT_stale_sticky p s m hm hmem, hsw]
        exact Or.inr ⟨nv.1, hmem2, rfl⟩

/-- The state after `get_ssd_temperature` is either unchanged or has
`ssd_method` set to an SSD-chain name (and `cpu_method` untouched). -/
theorem get_ssd_state_cases (p : String → Option ℚ) (s : MonState) :
    (get_ssd_temperature p s).2 = s ∨
      ∃ n, n ∈ ssdChain ∧ (get_ssd_temperature p s).2 = {s with ssd_method := some n} := by
  unfold get_ssd_temperature
  cases hsw : (sweepT p ssdChain).1 with
  | none =>
    cases hm : s.ssd_method with
    | none => rw [get_ssdT_no_sticky p s hm, hsw]; exact Or.inl rfl
    | some m =>
      by_cases hmem : m ∈ ssdChain
      · cases hp : p m with
        | some v => rw [get_ssdT_sticky_hit p s m v hm hmem hp]; exact Or.inl rfl
        | none => rw [get_ssdT_sticky_miss p s m hm hmem hp, hsw]; exact Or.inl rfl
      · rw [get_ssdT_stale_sticky p s m hm hmem, hsw]; exact Or.inl rfl
  | some nv =>
    have hmem2 : nv.1 ∈ ssdChain :=
      (sweepT_sel_mem p ssdChain nv.1 nv.2 (by rw [hsw])).1
    cases hm : s.ssd_method with
    | none =>
      rw [get_ssdT_no_sticky p s hm, hsw]
      exact Or.inr ⟨nv.1, hmem2, rfl⟩
    | some m =>
      by_cases hmem : m ∈ ssdChain
      · cases hp : p m with
        | some v => rw [get_ssdT_sticky_hit p s m v hm hmem hp]; exact Or.inl rfl
        | none =>
          rw [get_ssdT_sticky_miss p s m hm hmem hp, hsw]
          exact Or.inr ⟨nv.1, hmem2, rfl⟩
      · rw [get_ssdT_stale_sticky p s m hm hmem, hsw]
        exact Or.inr ⟨nv.1, hmem2, rfl⟩

/-! ### Probe totality lemmas -/

theorem run_powershell_ok (x : Except PyErr RunResult) :
    ∃ o, run_powershell x = .ok o := by
  unfold run_powershell
  exact pyTry_catchAll _ (fun _ => none)

theorem cpu_temp_lhm_ok (st : BackendState) : ∃ r, cpu_temp_lhm st = .ok r := by
  unfold cpu_temp_lhm
  cases h : st.lhm_ready with
  | false => exact ⟨none, rfl⟩
  | true =>
    cases hc : st.lhm_computer with
    | none => exact ⟨none, rfl⟩
    | some hwE => exact pyTry_catchAll _ (fun _ => none)

theorem cpu_temp_ohm_ok (st : BackendState) : ∃ r, cpu_temp_ohm st = .ok r := by
  unfold cpu_temp_ohm
  cases hc : st.wmi_ohm with
  | none => exact ⟨none, rfl⟩
  | some sE => exact pyTry_catchAll _ (fun _ => none)

theorem cpu_temp_wmi_acpi_ok (st : BackendState) :
    ∃ r, cpu_temp_wmi_acpi st = .ok r := by
  unfold cpu_temp_wmi_acpi
  cases hc : st.wmi_root with
  | none => exact ⟨none, rfl⟩
  | some q => exact pyTry_catchAll _ (fun _ => none)

theorem cpu_temp_ps_acpi_ok (st : BackendState) :
    ∃ r, cpu_temp_ps_acpi st = .ok r := by
  unfold cpu_temp_ps_acpi
  obtain ⟨o, ho⟩ := run_powershell_ok st.ps_acpi_run
  rw [ho, pyBind_ok]
  cases o with
  | none => exact ⟨none, rfl⟩
  | some str =>
    by_cases hs : str = ""
    · subst hs; exact ⟨none, rfl⟩
    · simp only [if_neg hs]
      rcases pyIntStr_cases (pyStrip str) with ⟨n, hn⟩ | hn <;> rw [hn]
      · simp only [pyBind_ok]
        split
        · exact ⟨_, rfl⟩
        · exact ⟨none, rfl⟩
      · exact ⟨none, rfl⟩

theorem cpu_temp_psutil_ok (st : BackendState) :
    ∃ r, cpu_temp_psutil st = .ok r := by
  unfold cpu_temp_psutil
  cases h : st.psutil_has_sensors with
  | false => exact ⟨none, rfl⟩
  | true => exact pyTry_catchAll _ (fun _ => none)

theorem ssd_temp_lhm_ok (st : BackendState) : ∃ r, ssd_temp_lhm st = .ok r := by
  unfold ssd_temp_lhm
  cases h : st.lhm_ready with
  | false => exact ⟨none, rfl⟩
  | true =>
    cases hc : st.lhm_computer with
    | none => exact ⟨none, rfl⟩
    | some hwE => exact pyTry_catchAll _ (fun _ => none)

theorem ssd_temp_ohm_ok (st : BackendState) : ∃ r, ssd_temp_ohm st = .ok r := by
  unfold ssd_temp_ohm
  cases hc : st.wmi_ohm with
  | none => exact ⟨none, rfl⟩
  | some sE => exact pyTry_catchAll _ (fun _ => none)

theorem ssd_temp_ps_reliability_ok (st : BackendState) :
    ∃ r, ssd_temp_ps_reliability st = .ok r := by
  unfold ssd_temp_ps_reliability
  obtain ⟨o, ho⟩ := run_powershell_ok st.ps_rel_run
  rw [ho, pyBind_ok]
  cases o with
  | none => exact ⟨none, rfl⟩
  | some str =>
    by_cases hs : str = ""
    · subst hs; exact ⟨none, rfl⟩
    · simp only [if_neg hs]
      rcases pyFloatStr_cases (pyStrip str) with ⟨v, hv⟩ | hv <;> rw [hv]
      · simp only [pyBind_ok]
        split
        · exact ⟨_, rfl⟩
        · exact ⟨none, rfl⟩
      · exact ⟨none, rfl⟩

theorem ssd_temp_wmi_storage_ok (st : BackendState) :
    ∃ r, ssd_temp_wmi_storage st = .ok r := by
  unfold ssd_temp_wmi_storage
  cases hc : st.wmi_storage with
  | none => exact ⟨none, rfl⟩
  | some q => exact pyTry_catchAll _ (fun _ => none)

/-! ### Invariant preservation lemmas -/

theorem methodInv_init (cp sp : String → Option ℚ) :
    methodInv (monitorInit cp sp) := by
  constructor
  · intro m hm
    simp only [monitorInit, detect_best_methods, detect_best_methodsT] at hm
    rcases ho : (sweepT cp cpuChain).1 with _ | nv
    · rw [ho] at hm; exact absurd hm (by simp)
    · rw [ho] at hm
      have hmem := (sweepT_sel_mem cp cpuChain nv.1 nv.2 (by rw [ho])).1
      have h2 : nv.1 = m := by simpa using hm
      rw [← h2]; exact hmem
  · intro m hm
    simp only [monitorInit, detect_best_methods, detect_best_methodsT] at hm
    rcases ho : (sweepT sp ssdChain).1 with _ | nv
    · rw [ho] at hm; exact absurd hm (by simp)
    · rw [ho] at hm
      have hmem := (sweepT_sel_mem sp ssdChain nv.1 nv.2 (by rw [ho])).1
      have h2 : nv.1 = m := by simpa using hm
      rw [← h2]; exact hmem

theorem get_cpu_preserves_inv (p : String → Option ℚ) (s : MonState)
    (h : methodInv s) : methodInv (get_cpu_temperature p s).2 := by
  rcases get_cpu_state_cases p s with h1 | ⟨n, hn, h1⟩ <;> rw [h1]
  · exact h
  · exact ⟨fun m hm => by injection hm with h2; rw [← h2]; exact hn, h.2⟩

theorem get_ssd_preserves_inv (q : String → Option ℚ) (s : MonState)
    (h : methodInv s) : methodInv (get_ssd_temperature q s).2 := by
  rcases get_ssd_state_cases q s with h1 | ⟨n, hn, h1⟩ <;> rw [h1]
  · exact h
  · exact ⟨h.1, fun m hm => by injection hm with h2; rw [← h2]; exact hn⟩

theorem read_sensors_state (os : OsState) (p q : String → Option ℚ)
    (s : MonState) :
    (read_sensors os p q s).2 = (get_ssd_temperature q (get_cpu_temperature p s).2).2 := rfl

theorem get_cpu_keeps_ssd_method (p : String → Option ℚ) (s : MonState) :
    ((get_cpu_temperature p s).2).ssd_method = s.ssd_method := by
  rcases get_cpu_state_cases p s with h1 | ⟨n, _, h1⟩ <;> rw [h1]

theorem get_ssd_keeps_cpu_method (q : String → Option ℚ) (s : MonState) :
    ((get_ssd_temperature q s).2).cpu_method = s.cpu_method := by
  rcases get_ssd_state_cases q s with h1 | ⟨n, _, h1⟩ <;> rw [h1]

theorem get_cpu_cpu_isSome (p : String → Option ℚ) (s : MonState)
    (h : s.cpu_method.isSome) : ((get_cpu_temperature p s).2).cpu_method.isSome := by
  rcases get_cpu_state_cases p s with h1 | ⟨n, _, h1⟩ <;> rw [h1]
  · exact h
  · rfl

theorem get_ssd_ssd_isSome (q : String → Option ℚ) (s : MonState)
    (h : s.ssd_method.isSome) : ((get_ssd_temperature q s).2).ssd_method.isSome := by
  rcases get_ssd_state_cases q s with h1 | ⟨n, _, h1⟩ <;> rw [h1]
  · exact h
  · rfl

/-! ### Claim theorems -/

/-- C6: every probe in either chain (and the `_run_powershell` helper)
terminates normally on every backend state — backend missing, malformed
data, out-of-range value, timeout or parse failure are all converted to a
returned `float` or absence, and no exception ever escapes to the caller
of a probe. -/
theorem C6_probes_never_raise :
    (∀ st, ∃ r, cpu_temp_lhm st = .ok r) ∧
    (∀ st, ∃ r, cpu_temp_ohm st = .ok r) ∧
    (∀ st, ∃ r, cpu_temp_wmi_acpi st = .ok r) ∧
    (∀ st, ∃ r, cpu_temp_ps_acpi st = .ok r) ∧
    (∀ st, ∃ r, cpu_temp_psutil st = .ok r) ∧
    (∀ st, ∃ r, ssd_temp_lhm st = .ok r) ∧
    (∀ st, ∃ r, ssd_temp_ohm st = .ok r) ∧
    (∀ st, ∃ r, ssd_temp_ps_reliability st = .ok r) ∧
    (∀ st, ∃ r, ssd_temp_wmi_storage st = .ok r) ∧
    (∀ x, ∃ o, run_powershell x = .ok o) :=
  ⟨cpu_temp_lhm_ok, cpu_temp_ohm_ok, cpu_temp_wmi_acpi_ok, cpu_temp_ps_acpi_ok,
   cpu_temp_psutil_ok, ssd_temp_lhm_ok, ssd_temp_ohm_ok,
   ssd_temp_ps_reliability_ok, ssd_temp_wmi_storage_ok, run_powershell_ok⟩

/-- C2 (code bug): `_cpu_temp_psutil` performs no `(0, 150)` range check.
At a backend state where psutil reports a `coretemp` reading of 9999
degrees and every other backend is unavailable, the probe returns 9999,
which is outside the open interval `(0, 150)`, and the resulting
`SensorReading` carries `cpu_temp = 9999` — contradicting the claimed
invariant that every present temperature lies in `(0, 150)`. -/
theorem C2_psutil_out_of_range_accepted :
    cpu_temp_psutil psutilBugState = .ok (some 9999) ∧
    ¬ ((0 : ℚ) < 9999 ∧ (9999 : ℚ) < 150) ∧
    (read_sensors os0 (cpuProbeOf psutilBugState) (ssdProbeOf psutilBugState)
        (monitorInit (cpuProbeOf psutilBugState) (ssdProbeOf psutilBugState))).1.cpu_temp
      = some 9999 := by
  refine ⟨rfl, by norm_num, ?_⟩
  have h9 : pyRound1 (9999 : ℚ) = 9999 := by
    rw [show ((9999 : ℚ)) = (((9999 : ℤ)) : ℚ) by norm_num, pyRound1_intCast]
  have h1 : (get_cpu_temperature (cpuProbeOf psutilBugState)
      (monitorInit (cpuProbeOf psutilBugState) (ssdProbeOf psutilBugState))).1
      = some (9999 : ℚ) := rfl
  show ((get_cpu_temperature (cpuProbeOf psutilBugState)
      (monitorInit (cpuProbeOf psutilBugState) (ssdProbeOf psutilBugState))).1).map pyRound1
      = some 9999
  rw [h1]
  show some (pyRound1 (9999 : ℚ)) = some 9999
  rw [h9]

/-- C3: the discovery pass run at construction walks each chain in
priority order, selects the first probe returning a non-absent value,
stops there (the invocation trace is exactly the failed prefix plus the
winner), and the selection is unchanged under any change to the outcomes
of lower-priority probes. -/
theorem C3_discovery_selects_first_success
    (cp cp' sp sp' : String → Option ℚ)
    (preC postC preS postS : List String) (nC nS : String) (vC vS : ℚ)
    (hC : cpuChain = preC ++ nC :: postC)
    (hCpre : ∀ x ∈ preC, cp x = none) (hCn : cp nC = some vC)
    (hCpre' : ∀ x ∈ preC, cp' x = none) (hCn' : cp' nC = some vC)
    (hS : ssdChain = preS ++ nS :: postS)
    (hSpre : ∀ x ∈ preS, sp x = none) (hSn : sp nS = some vS)
    (hSpre' : ∀ x ∈ preS, sp' x = none) (hSn' : sp' nS = some vS) :
    (monitorInit cp sp).cpu_method = some nC ∧
    (monitorInit cp' sp').cpu_method = some nC ∧
    (detect_best_methodsT cp sp).2.1 = preC ++ [nC] ∧
    (monitorInit cp sp).ssd_method = some nS ∧
    (monitorInit cp' sp').ssd_method = some nS ∧
    (detect_best_methodsT cp sp).2.2 = preS ++ [nS] := by
  have h1 := sweepT_first cp preC nC postC vC hCpre hCn
  have h1' := sweepT_first cp' preC nC postC vC hCpre' hCn'
  have h2 := sweepT_first sp preS nS postS vS hSpre hSn
  have h2' := sweepT_first sp' preS nS postS vS hSpre' hSn'
  rw [← hC] at h1 h1'
  rw [← hS] at h2 h2'
  unfold monitorInit detect_best_methods detect_best_methodsT
  rw [h1, h1', h2, h2']
  simp

/-- Witness for C3 at concrete inputs: with the first CPU probe dead and
the second returning 42, discovery selects `ohm_wmi` after invoking
exactly `lhm` then `ohm_wmi`; perturbing the last probe's outcome
(`cpuHit2'`, `ssdHit3'`) does not change the selection. -/
theorem C3_discovery_selects_first_success_witness :
    (monitorInit cpuHit2 ssdHit3).cpu_method = some "ohm_wmi" ∧
    (monitorInit cpuHit2' ssdHit3').cpu_method = some "ohm_wmi" ∧
    (detect_best_methodsT cpuHit2 ssdHit3).2.1 = ["lhm", "ohm_wmi"] ∧
    (monitorInit cpuHit2 ssdHit3).ssd_method = some "ps_reliability" ∧
    (monitorInit cpuHit2' ssdHit3').ssd_method = some "ps_reliability" ∧
    (detect_best_methodsT cpuHit2 ssdHit3).2.2 = ["lhm", "ohm_wmi", "ps_reliability"] :=
  C3_discovery_selects_first_success cpuHit2 cpuHit2' ssdHit3 ssdHit3'
    ["lhm"] ["wmi_acpi", "ps_acpi", "psutil"]
    ["lhm", "ohm_wmi"] ["wmi_storage"]
    "ohm_wmi" "ps_reliability" 42 41
    rfl (by decide) rfl (by decide) rfl
    rfl (by decide) rfl (by decide) rfl

/-- C4: when a method is already selected and its probe still succeeds,
one read call invokes exactly that probe and no other (the invocation
trace is the one-element list), returns its value, and leaves the state
unchanged. -/
theorem C4_sticky_fast_path
    (p q : String → Option ℚ) (s : MonState) (m m2 : String) (v w : ℚ)
    (hm : s.cpu_method = some m) (hmem : m ∈ cpuChain) (hp : p m = some v)
    (hm2 : s.ssd_method = some m2) (hmem2 : m2 ∈ ssdChain) (hq : q m2 = some w) :
    get_cpu_temperatureT p s = (some v, s, [m]) ∧
    get_ssd_temperatureT q s = (some w, s, [m2]) :=
  ⟨get_cpuT_sticky_hit p s m v hm hmem hp,
   get_ssdT_sticky_hit q s m2 w hm2 hmem2 hq⟩

/-- Witness for C4 at concrete inputs: with `lhm` selected for CPU and
`ohm_wmi` for SSD and both still succeeding, a read invokes exactly the
selected probe. -/
theorem C4_sticky_fast_path_witness :
    get_cpu_temperatureT cpuSticky sB = (some 36, sB, ["lhm"]) ∧
    get_ssd_temperatureT ssdSticky sB = (some 40, sB, ["ohm_wmi"]) :=
  C4_sticky_fast_path cpuSticky ssdSticky sB "lhm" "ohm_wmi" 36 40
    rfl (by decide) rfl rfl (by decide) rfl

/-- C5: when the selected sticky probe fails on a read, the same call
falls through to a full sweep of the chain in declared priority order
(the trace is the sticky probe followed by the chain prefix up to the
first success), returns the first succeeding probe's value, and updates
the selected method to that probe's name. -/
theorem C5_sticky_failure_triggers_sweep
    (p q : String → Option ℚ) (s : MonState) (m m2 : String)
    (pre post pre2 post2 : List String) (n n2 : String) (v w : ℚ)
    (hm : s.cpu_method = some m) (hmem : m ∈ cpuChain) (hpm : p m = none)
    (hC : cpuChain = pre ++ n :: post)
    (hpre : ∀ x ∈ pre, p x = none) (hn : p n = some v)
    (hm2 : s.ssd_method = some m2) (hmem2 : m2 ∈ ssdChain) (hqm : q m2 = none)
    (hS : ssdChain = pre2 ++ n2 :: post2)
    (hpre2 : ∀ x ∈ pre2, q x = none) (hn2 : q n2 = some w) :
    get_cpu_temperatureT p s
      = (some v, {s with cpu_method := some n}, m :: (pre ++ [n])) ∧
    get_ssd_temperatureT q s
      = (some w, {s with ssd_method := some n2}, m2 :: (pre2 ++ [n2])) := by
  have h1 := sweepT_first p pre n post v hpre hn
  rw [← hC] at h1
  have h2 := sweepT_first q pre2 n2 post2 w hpre2 hn2
  rw [← hS] at h2
  constructor
  · rw [get_cpuT_sticky_miss p s m hm hmem hpm, h1]
  · rw [get_ssdT_sticky_miss q s m2 hm2 hmem2 hqm, h2]

/-- Witness for C5 at concrete inputs, mirroring the spec's example: the
sticky probe fails, the first two chain entries fail, the third succeeds
with 50 — the read returns 50 and the selection moves to the third
probe's name. -/
theorem C5_sticky_failure_triggers_sweep_witness :
    get_cpu_temperatureT cpuThird s0
      = (some 50, ⟨some "wmi_acpi", some "lhm"⟩,
          ["lhm", "lhm", "ohm_wmi", "wmi_acpi"]) ∧
    get_ssd_temperatureT ssdThird s0
      = (some 45, ⟨some "lhm", some "ps_reliability"⟩,
          ["lhm", "lhm", "ohm_wmi", "ps_reliability"]) :=
  C5_sticky_failure_triggers_sweep cpuThird ssdThird s0 "lhm" "lhm"
    ["lhm", "ohm_wmi"] ["ps_acpi", "psutil"]
    ["lhm", "ohm_wmi"] ["wmi_storage"]
    "wmi_acpi" "ps_reliability" 50 45
    rfl (by decide) rfl rfl (by decide) rfl
    rfl (by decide) rfl rfl (by decide) rfl

/-- C1 counterexample: with `"lhm"` selected and every probe failing both
on the sticky call and throughout the re-discovery sweep, the read
returns absence but the selected method is NOT updated to none — it still
holds `"lhm"`, and the diagnostic label still reports the stale backend
name instead of unavailable. -/
theorem C1_counterexample :
    (get_cpu_temperature noneProbe s0).1 = none ∧
    (get_cpu_temperature noneProbe s0).2.cpu_method = some "lhm" ∧
    cpu_method_label (get_cpu_temperature noneProbe s0).2 = "LibreHardwareMonitor" ∧
    cpu_method_label (get_cpu_temperature noneProbe s0).2 ≠ "Tidak tersedia" := by
  have h := get_cpu_all_none noneProbe s0 (fun _ => rfl)
  rw [h]
  exact ⟨rfl, rfl, rfl, by decide⟩

/-- C1 amended: for both metrics, if the selected sticky probe fails
during a read and the subsequent full re-discovery sweep also finds no
probe returning a value, the call returns absence but the selected-method
slot is left unchanged — it keeps the previously selected probe's name
and is not cleared to none. -/
theorem C1_amended_sweep_failure_keeps_method
    (p q : String → Option ℚ) (s : MonState) (m m2 : String)
    (hm : s.cpu_method = some m) (hm2 : s.ssd_method = some m2)
    (hp : ∀ x, p x = none) (hq : ∀ x, q x = none) :
    get_cpu_temperature p s = (none, s) ∧
    (get_cpu_temperature p s).2.cpu_method = some m ∧
    get_ssd_temperature q s = (none, s) ∧
    (get_ssd_temperature q s).2.ssd_method = some m2 :=
  ⟨get_cpu_all_none p s hp,
   by rw [get_cpu_all_none p s hp]; exact hm,
   get_ssd_all_none q s hq,
   by rw [get_ssd_all_none q s hq]; exact hm2⟩

/-- Witness for the amended C1 at concrete inputs. -/
theorem C1_amended_sweep_failure_keeps_method_witness :
    get_cpu_temperature noneProbe sB = (none, sB) ∧
    (get_cpu_temperature noneProbe sB).2.cpu_method = some "lhm" ∧
    get_ssd_temperature noneProbe sB = (none, sB) ∧
    (get_ssd_temperature noneProbe sB).2.ssd_method = some "ohm_wmi" :=
  C1_amended_sweep_failure_keeps_method noneProbe noneProbe sB "lhm" "ohm_wmi"
    rfl rfl (fun _ => rfl) (fun _ => rfl)

/-- C7: every reading populates the utilization fields from the direct OS
query (they are plain, never-absent fields of `SensorReading`), even when
both temperature chains are fully exhausted and both temperatures are
absent. -/
theorem C7_utilization_always_present
    (os : OsState) (p q : String → Option ℚ) (s : MonState) :
    (read_sensors os p q s).1.cpu_percent = pyRound1 os.cpu_percent ∧
    (read_sensors os p q s).1.ram_percent = pyRound1 os.ram_percent ∧
    (read_sensors os p q s).1.disk_percent = pyRound1 os.disk_percent ∧
    (read_sensors os p q s).1.timestamp = os.timestamp ∧
    ((∀ x, p x = none) → (read_sensors os p q s).1.cpu_temp = none) ∧
    ((∀ x, q x = none) → (read_sensors os p q s).1.ssd_temp = none) := by
  refine ⟨rfl, rfl, rfl, rfl, ?_, ?_⟩
  · intro hp
    show ((get_cpu_temperature p s).1).map pyRound1 = none
    rw [get_cpu_all_none p s hp]
    rfl
  · intro hq
    show ((get_ssd_temperature q (get_cpu_temperature p s).2).1).map pyRound1 = none
    rw [get_ssd_all_none q (get_cpu_temperature p s).2 hq]
    rfl

/-- Witness for C7 at concrete inputs: with every probe failing, the
utilization fields are still populated and the temperatures are absent. -/
theorem C7_utilization_always_present_witness :
    (read_sensors os0 noneProbe noneProbe s0).1.cpu_percent = pyRound1 os0.cpu_percent ∧
    (read_sensors os0 noneProbe noneProbe s0).1.cpu_temp = none ∧
    (read_sensors os0 noneProbe noneProbe s0).1.ssd_temp = none := by
  have h := C7_utilization_always_present os0 noneProbe noneProbe s0
  exact ⟨h.1, h.2.2.2.2.1 (fun _ => rfl), h.2.2.2.2.2 (fun _ => rfl)⟩

/-- C8: when the whole chain of a metric is exhausted at construction,
the selected method stays none, `get_system_info` reports `"none"`, a
read returns absence without changing the state, and the human-readable
label reports unavailable ("Tidak tersedia"). -/
theorem C8_chain_exhausted_reports_none
    (cp sp : String → Option ℚ) (hcp : ∀ x, cp x = none) (hsp : ∀ x, sp x = none) :
    (monitorInit cp sp).cpu_method = none ∧
    (monitorInit cp sp).ssd_method = none ∧
    temp_cpu_method (monitorInit cp sp) = "none" ∧
    temp_ssd_method (monitorInit cp sp) = "none" ∧
    get_cpu_temperature cp (monitorInit cp sp) = (none, monitorInit cp sp) ∧
    get_ssd_temperature sp (monitorInit cp sp) = (none, monitorInit cp sp) ∧
    cpu_method_label (monitorInit cp sp) = "Tidak tersedia" ∧
    ssd_method_label (monitorInit cp sp) = "Tidak tersedia" := by
  have h1 : sweepT cp cpuChain = (none, cpuChain) :=
    sweepT_none cp cpuChain (fun x _ => hcp x)
  have h2 : sweepT sp ssdChain = (none, ssdChain) :=
    sweepT_none sp ssdChain (fun x _ => hsp x)
  have hm : monitorInit cp sp = ⟨none, none⟩ := by
    unfold monitorInit detect_best_methods detect_best_methodsT
    rw [h1, h2]
    rfl
  rw [hm]
  exact ⟨rfl, rfl, rfl, rfl, get_cpu_all_none cp ⟨none, none⟩ hcp,
    get_ssd_all_none sp ⟨none, none⟩ hsp, rfl, rfl⟩

/-- Witness for C8 at concrete inputs. -/
theorem C8_chain_exhausted_reports_none_witness :
    (monitorInit noneProbe noneProbe).cpu_method = none ∧
    temp_cpu_method (monitorInit noneProbe noneProbe) = "none" ∧
    get_cpu_temperature noneProbe (monitorInit noneProbe noneProbe)
      = (none, monitorInit noneProbe noneProbe) ∧
    cpu_method_label (monitorInit noneProbe noneProbe) = "Tidak tersedia" ∧
    ssd_method_label (monitorInit noneProbe noneProbe) = "Tidak tersedia" := by
  have h := C8_chain_exhausted_reports_none noneProbe noneProbe
    (fun _ => rfl) (fun _ => rfl)
  exact ⟨h.1, h.2.2.1, h.2.2.2.2.1, h.2.2.2.2.2.2.1, h.2.2.2.2.2.2.2⟩

/-- C9: construction establishes, and every operation preserves, the
invariant that a filled selected-method slot holds a name of its own
metric's chain; moreover no operation ever resets a filled slot back to
none (`isSome` is monotone across `get_cpu_temperature`,
`get_ssd_temperature` and `read_sensors`). -/
theorem C9_selected_method_invariant
    (cp sp p q : String → Option ℚ) (os : OsState) (s : MonState) :
    methodInv (monitorInit cp sp) ∧
    (methodInv s →
      methodInv (get_cpu_temperature p s).2 ∧
      methodInv (get_ssd_temperature q s).2 ∧
      methodInv (read_sensors os p q s).2) ∧
    (s.cpu_method.isSome →
      ((get_cpu_temperature p s).2.cpu_method.isSome ∧
       (get_ssd_temperature q s).2.cpu_method.isSome ∧
       (read_sensors os p q s).2.cpu_method.isSome)) ∧
    (s.ssd_method.isSome →
      ((get_cpu_temperature p s).2.ssd_method.isSome ∧
       (get_ssd_temperature q s).2.ssd_method.isSome ∧
       (read_sensors os p q s).2.ssd_method.isSome)) := by
  refine ⟨methodInv_init cp sp,
    fun h => ⟨get_cpu_preserves_inv p s h, get_ssd_preserves_inv q s h, ?_⟩,
    fun h => ⟨get_cpu_cpu_isSome p s h, ?_, ?_⟩,
    fun h => ⟨?_, get_ssd_ssd_isSome q s h, ?_⟩⟩
  · rw [read_sensors_state]
    exact get_ssd_preserves_inv q _ (get_cpu_preserves_inv p s h)
  · rw [get_ssd_keeps_cpu_method]; exact h
  · rw [read_sensors_state, get_ssd_keeps_cpu_method]
    exact get_cpu_cpu_isSome p s h
  · rw [get_cpu_keeps_ssd_method]; exact h
  · rw [read_sensors_state]
    apply get_ssd_ssd_isSome
    rw [get_cpu_keeps_ssd_method]; exact h

/-- Witness for C9 at concrete inputs. -/
theorem C9_selected_method_invariant_witness :
    methodInv (monitorInit cpuHit2 ssdHit3) ∧
    methodInv (get_cpu_temperature cpuThird s0).2 ∧
    (get_cpu_temperature cpuThird s0).2.cpu_method.isSome ∧
    (read_sensors os0 cpuThird ssdThird s0).2.ssd_method.isSome := by
  have h := C9_selected_method_invariant cpuHit2 ssdHit3 cpuThird ssdThird os0 s0
  have hinv : methodInv s0 :=
    ⟨fun m hm => by
        have h2 : "lhm" = m := by simpa [s0] using hm
        rw [← h2]; decide,
     fun m hm => by
        have h2 : "lhm" = m := by simpa [s0] using hm
        rw [← h2]; decide⟩
  exact ⟨h.1, (h.2.1 hinv).1, (h.2.2.1 rfl).1, (h.2.2.2 rfl).2.2⟩

/-- C10: every numeric field of the returned `SensorReading` — the three
utilization percentages, and each temperature when present — is a fixed
point of rounding to one decimal place. -/
theorem C10_fields_rounded_one_decimal
    (os : OsState) (p q : String → Option ℚ) (s : MonState) :
    (read_sensors os p q s).1.cpu_percent
      = pyRound1 ((read_sensors os p q s).1.cpu_percent) ∧
    (read_sensors os p q s).1.ram_percent
      = pyRound1 ((read_sensors os p q s).1.ram_percent) ∧
    (read_sensors os p q s).1.disk_percent
      = pyRound1 ((read_sensors os p q s).1.disk_percent) ∧
    (∀ t, (read_sensors os p q s).1.cpu_temp = some t → t = pyRound1 t) ∧
    (∀ t, (read_sensors os p q s).1.ssd_temp = some t → t = pyRound1 t) := by
  refine ⟨(pyRound1_idem os.cpu_percent).symm, (pyRound1_idem os.ram_percent).symm,
    (pyRound1_idem os.disk_percent).symm, ?_, ?_⟩
  · intro t ht
    have ht2 : ((get_cpu_temperature p s).1).map pyRound1 = some t := ht
    rcases hc : (get_cpu_temperature p s).1 with _ | u
    · rw [hc] at ht2; exact absurd ht2 (by simp)
    · rw [hc] at ht2
      have h3 : pyRound1 u = t := by simpa using ht2
      rw [← h3, pyRound1_idem]
  · intro t ht
    have ht2 : ((get_ssd_temperature q (get_cpu_temperature p s).2).1).map pyRound1
        = some t := ht
    rcases hc : (get_ssd_temperature q (get_cpu_temperature p s).2).1 with _ | u
    · rw [hc] at ht2; exact absurd ht2 (by simp)
    · rw [hc] at ht2
      have h3 : pyRound1 u = t := by simpa using ht2
      rw [← h3, pyRound1_idem]

/-- Witness for C10 at concrete inputs: the present `cpu_temp` of a
concrete reading is a fixed point of one-decimal rounding. -/
theorem C10_fields_rounded_one_decimal_witness :
    (read_sensors os0 cpuSticky ssdSticky sB).1.cpu_percent
      = pyRound1 ((read_sensors os0 cpuSticky ssdSticky sB).1.cpu_percent) ∧
    pyRound1 36 = pyRound1 (pyRound1 36) := by
  have h := C10_fields_rounded_one_decimal os0 cpuSticky ssdSticky sB
  exact ⟨h.1, h.2.2.2.1 (pyRound1 36) rfl⟩

end IdmMonitor
